import Mathlib

/-!
Shallow embedding of the NeuroStrike gameplay code (an Unreal Engine C++
first-person-shooter template) and theorems checking its specification.

Engine `float` attributes are modelled as rationals (`ℚ`), so the arithmetic
of the gameplay code (subtract on damage and stamina cost, add on
regeneration) is exact. Engine-owned nullable pointers are modelled as
`Option`; a dereference of such a pointer goes through `deref`, which fails
with `NullDeref.nullDeref` when the pointer is null, so absence of null
dereferences is a provable property of the embedding rather than an
assumption. Fields that record observable engine effects (projectiles
spawned, delegate broadcasts, destruction of the actor) are explicit
counters and flags in the state.
-/

/-- A 3-component vector of rationals, modelling the engine type FVector. -/
abbrev Vec3 : Type := ℚ × ℚ × ℚ

/-- The engine network role enumeration ENetRole. -/
inductive NetRole : Type where
  | roleNone : NetRole
  | simulatedProxy : NetRole
  | autonomousProxy : NetRole
  | authority : NetRole
deriving DecidableEq

/-- The single error of the embedding: a dereference of a null
engine-owned pointer. -/
inductive NullDeref : Type where
  | nullDeref : NullDeref
deriving DecidableEq

/-- Dereference a nullable engine pointer: fails when the pointer is null. -/
def deref {α : Type} : Option α → Except NullDeref α
  | some a => Except.ok a
  | none => Except.error NullDeref.nullDeref

/-- FVector.IsNearlyZero from the engine: every component has absolute
value at most the tolerance. -/
def isNearlyZero (v : Vec3) (tol : ℚ) : Bool :=
  decide (|v.1| ≤ tol) && decide (|v.2.1| ≤ tol) && decide (|v.2.2| ≤ tol)

/-- FMath.RandRange on int32, modelled by its engine contract: a value in
the inclusive range [lo, hi], selected here by an explicit random source
`rnd`. -/
def RandRange (lo hi : Int) (rnd : Nat) : Int :=
  lo + ((rnd % (hi + 1 - lo).toNat : Nat) : Int)

/-- The gameplay state of ANeuroStrikeCharacter relevant to its attribute
bookkeeping: health, stamina, speeds, the last movement input vector held
by the movement component, the static regeneration accumulator of Tick,
the nullable WeaponComponent pointer (never assigned in this code, guarded
as nullable in Shoot), and flags for the observable effects of
Despawn_Implementation (DestroyComponent on the weapon,
Multicast_OnDespawnEffects, Destroy). -/
structure CharacterState : Type where
  health : ℚ
  maxHealth : ℚ
  baseStamina : ℚ
  maxStamina : ℚ
  staminaRegenRate : ℚ
  walkingSpeed : ℚ
  sprintingSpeed : ℚ
  maxWalkSpeed : ℚ
  lastInputVector : Vec3
  accumulatedTime : ℚ
  playerId : Int
  weaponComponent : Option Unit
  destroyed : Bool
  weaponComponentDestroyed : Bool
  despawnEffectsBroadcast : Bool
deriving DecidableEq

/-- ANeuroStrikeCharacter::BeginPlay: assigns a random PlayerId in
[1, 10000], sets Health to MaxHealth and BaseStamina to MaxStamina. -/
def BeginPlay (s : CharacterState) (rnd : Nat) : CharacterState :=
  { s with
    playerId := RandRange 1 10000 rnd
    health := s.maxHealth
    baseStamina := s.maxStamina }

/-- ANeuroStrikeCharacter::Tick: accumulates DeltaSeconds; once at least
0.1 seconds have accumulated and BaseStamina is below MaxStamina, adds
StaminaRegenRate to BaseStamina and resets the accumulator. -/
def Tick (s : CharacterState) (deltaSeconds : ℚ) : CharacterState :=
  let acc := s.accumulatedTime + deltaSeconds
  if 1/10 ≤ acc ∧ s.baseStamina < s.maxStamina then
    { s with baseStamina := s.baseStamina + s.staminaRegenRate, accumulatedTime := 0 }
  else
    { s with accumulatedTime := acc }

/-- ANeuroStrikeCharacter::Despawn_Implementation: dereferences
WeaponComponent with no null guard to destroy it, then broadcasts the
despawn effects multicast and destroys the actor; with a null
WeaponComponent the dereference fails before any effect happens. -/
def Despawn_Implementation (s : CharacterState) : Except NullDeref CharacterState := do
  let _ ← deref s.weaponComponent
  Except.ok
    { s with
      weaponComponent := none
      weaponComponentDestroyed := true
      despawnEffectsBroadcast := true
      destroyed := true }

/-- ANeuroStrikeCharacter::DecreaseHealth_Implementation: subtracts the
cost from Health; when the result is at or below zero, sets Health to
exactly zero and runs Despawn_Implementation. -/
def DecreaseHealth_Implementation (s : CharacterState) (healthCost : ℚ) :
    Except NullDeref CharacterState :=
  let s1 := { s with health := s.health - healthCost }
  if s1.health ≤ 0 then
    Despawn_Implementation { s1 with health := 0 }
  else
    Except.ok s1

/-- ANeuroStrikeCharacter::PlayerHasEnoughStamina: BaseStamina is at least
the stamina cost. -/
def PlayerHasEnoughStamina (s : CharacterState) (staminaCost : ℚ) : Bool :=
  decide (staminaCost ≤ s.baseStamina)

/-- ANeuroStrikeCharacter::IsPlayerMoving: the last input vector of the
movement component is not nearly zero, with tolerance 0.001. -/
def IsPlayerMoving (s : CharacterState) : Bool :=
  !(isNearlyZero s.lastInputVector (1/1000))

/-- ANeuroStrikeCharacter::DecreaseStamina: subtracts the cost from
BaseStamina. -/
def DecreaseStamina (s : CharacterState) (staminaCost : ℚ) : CharacterState :=
  { s with baseStamina := s.baseStamina - staminaCost }

/-- ANeuroStrikeCharacter::StopSprinting: sets MaxWalkSpeed of the
movement component back to WalkingSpeed. -/
def StopSprinting (s : CharacterState) : CharacterState :=
  { s with maxWalkSpeed := s.walkingSpeed }

/-- ANeuroStrikeCharacter::Sprint: with stamina cost 0.1, when the player
has enough stamina and is moving, sets MaxWalkSpeed to SprintingSpeed and
decreases stamina by the cost; otherwise StopSprinting. -/
def Sprint (s : CharacterState) : CharacterState :=
  if PlayerHasEnoughStamina s (1/10) && IsPlayerMoving s then
    DecreaseStamina { s with maxWalkSpeed := s.sprintingSpeed } (1/10)
  else
    StopSprinting s

/-- A call through the sprint input interface: a Sprint trigger (carrying
the current last input vector of the movement component) or a
StopSprinting completion. -/
inductive SprintCall : Type where
  | sprint (input : Vec3) : SprintCall
  | stopSprinting : SprintCall

/-- Apply one sprint-interface call to the character state. -/
def applySprintCall (s : CharacterState) : SprintCall → CharacterState
  | SprintCall.sprint v => Sprint { s with lastInputVector := v }
  | SprintCall.stopSprinting => StopSprinting s

/-- Run a sequence of sprint-interface calls. -/
def runSprintCalls (s : CharacterState) (calls : List SprintCall) : CharacterState :=
  List.foldl applySprintCall s calls

/-- The attribute state of UStatsComponent. -/
structure StatsState : Type where
  health : ℚ
  maxHealth : ℚ
  baseStamina : ℚ
  maxStamina : ℚ
deriving DecidableEq

/-- UStatsComponent::BeginPlay: sets Health to MaxHealth and BaseStamina
to MaxStamina. -/
def StatsBeginPlay (s : StatsState) : StatsState :=
  { s with health := s.maxHealth, baseStamina := s.maxStamina }

/-- An engine controller object, as seen through the casts and lookups the
code performs on it: whether Cast to APlayerController succeeds, whether
GetSubsystem finds the enhanced-input subsystem on its local player, and
whether its InputComponent casts to UEnhancedInputComponent. -/
structure ControllerRef : Type where
  isPlayerController : Bool
  hasEnhancedInputSubsystem : Bool
  hasEnhancedInputComponent : Bool
deriving DecidableEq

/-- A reference to an ANeuroStrikeCharacter as the weapon and pickup code
sees it: its rifle flag, its (nullable) controller, and whether the anim
instance of its first-person mesh is present. -/
structure CharacterRef : Type where
  bHasRifle : Bool
  controller : Option ControllerRef
  hasAnimInstance : Bool
deriving DecidableEq

/-- Cast＜APlayerController＞ applied to a nullable controller: null when
the input is null or the controller is not a player controller. -/
def castPlayerController : Option ControllerRef → Option ControllerRef
  | some c => if c.isPlayerController then some c else none
  | none => none

/-- ANeuroStrikeCharacter::GetHasRifle. -/
def GetHasRifle (c : CharacterRef) : Bool :=
  c.bHasRifle

/-- ANeuroStrikeCharacter::SetHasRifle. -/
def SetHasRifle (c : CharacterRef) (bNewHasRifle : Bool) : CharacterRef :=
  { c with bHasRifle := bNewHasRifle }

/-- The state of UTP_WeaponComponent: its (nullable) Character, the
null-or-not status of its asset pointers (ProjectileClass, FireSound,
FireAnimation) and of GetWorld, the owner network role, and counters for
the observable effects (projectiles spawned, sounds played, montages
played). -/
structure WeaponState : Type where
  character : Option CharacterRef
  projectileClassSet : Bool
  worldPresent : Bool
  fireSoundSet : Bool
  fireAnimationSet : Bool
  ownerRole : NetRole
  projectilesSpawned : Nat
  soundsPlayed : Nat
  montagesPlayed : Nat
deriving DecidableEq

/-- UTP_WeaponComponent::HandleProjectileFX_Implementation: when FireSound
is set, plays it at the Character location (a dereference of Character);
when FireAnimation is set, fetches the anim instance of the Character
first-person mesh (a dereference of Character) and, if the instance is
present, plays the montage. -/
def HandleProjectileFX (s : WeaponState) : Except NullDeref WeaponState := do
  let s1 ←
    if s.fireSoundSet then do
      let _ ← deref s.character
      pure { s with soundsPlayed := s.soundsPlayed + 1 }
    else
      pure s
  if s1.fireAnimationSet then do
    let ch ← deref s1.character
    if ch.hasAnimInstance then
      pure { s1 with montagesPlayed := s1.montagesPlayed + 1 }
    else
      pure s1
  else
    pure s1

/-- UTP_WeaponComponent::HandleProjectile: when ProjectileClass is set and
the world is present, reads the camera rotation through
Cast＜APlayerController＞(Character→GetController())→PlayerCameraManager —
a dereference of Character and then of the cast result, neither guarded —
and spawns the projectile; in every case it then runs HandleProjectileFX. -/
def HandleProjectile (s : WeaponState) : Except NullDeref WeaponState := do
  let s1 ←
    if s.projectileClassSet then
      if s.worldPresent then do
        let ch ← deref s.character
        let pc := castPlayerController ch.controller
        let _ ← deref pc
        pure { s with projectilesSpawned := s.projectilesSpawned + 1 }
      else
        pure s
    else
      pure s
  HandleProjectileFX s1

/-- UTP_WeaponComponent::ServerFire_Implementation: its body is exactly a
call to HandleProjectile. -/
def WeaponServerFire_Implementation (s : WeaponState) : Except NullDeref WeaponState :=
  HandleProjectile s

/-- UTP_WeaponComponent::Fire: early-returns when Character or its
controller is null; otherwise runs HandleProjectile directly on the
authority and through the ServerFire RPC (whose handler is
WeaponServerFire_Implementation) otherwise. -/
def WeaponFire (s : WeaponState) : Except NullDeref WeaponState :=
  match s.character with
  | none => Except.ok s
  | some ch =>
    match ch.controller with
    | none => Except.ok s
    | some _ =>
      if s.ownerRole = NetRole.authority then
        HandleProjectile s
      else
        WeaponServerFire_Implementation s

/-- The attachment state of UTP_WeaponComponent for AttachWeapon: the
Character field plus flags for the observable attachment effects
(AttachToComponent on the first-person mesh, AddMappingContext of the
fire context, BindAction of the fire action). -/
structure AttachState : Type where
  character : Option CharacterRef
  attachedToMesh : Bool
  fireMappingContextAdded : Bool
  fireInputBound : Bool
deriving DecidableEq

/-- UTP_WeaponComponent::AttachWeapon: stores the target in Character,
then aborts when the target is null or already has the rifle; otherwise
attaches to the first-person mesh, sets the rifle flag, and — when the
controller casts to a player controller — adds the fire mapping context
(when the subsystem is found) and binds the fire action (when the input
component casts to enhanced input). -/
def AttachWeapon (s : AttachState) (targetCharacter : Option CharacterRef) : AttachState :=
  let s0 := { s with character := targetCharacter }
  match targetCharacter with
  | none => s0
  | some c =>
    if GetHasRifle c then
      s0
    else
      let c1 := SetHasRifle c true
      let s1 := { s0 with attachedToMesh := true, character := some c1 }
      match castPlayerController c1.controller with
      | none => s1
      | some pc =>
        let s2 :=
          if pc.hasEnhancedInputSubsystem then
            { s1 with fireMappingContextAdded := true }
          else
            s1
        if pc.hasEnhancedInputComponent then
          { s2 with fireInputBound := true }
        else
          s2

/-- The rifle flag of the Character stored in an AttachState, as
GetHasRifle reports it (false when no character is stored). -/
def attachStateHasRifle (s : AttachState) : Bool :=
  match s.character with
  | some c => GetHasRifle c
  | none => false

/-- The firing state of ANeuroStrikeCharacter: its (nullable)
WeaponComponent, its local network role, and an instrumentation counter
that records each entry into Shoot. -/
structure CharFireState : Type where
  weaponComponent : Option WeaponState
  localRole : NetRole
  shootEntries : Nat
deriving DecidableEq

/-- ANeuroStrikeCharacter::Shoot: early-returns when WeaponComponent is
null; otherwise runs HandleProjectile on the weapon and then the FireFX
multicast, whose handler FireFX_Implementation runs HandleProjectileFX on
the weapon. The shootEntries counter records the entry. -/
def Shoot (s : CharFireState) : Except NullDeref CharFireState :=
  let s0 := { s with shootEntries := s.shootEntries + 1 }
  match s.weaponComponent with
  | none => Except.ok s0
  | some w => do
    let w1 ← HandleProjectile w
    let w2 ← HandleProjectileFX w1
    Except.ok { s0 with weaponComponent := some w2 }

/-- ANeuroStrikeCharacter::ServerFire_Implementation: its body is exactly
a call to Shoot. -/
def CharServerFire_Implementation (s : CharFireState) : Except NullDeref CharFireState :=
  Shoot s

/-- ANeuroStrikeCharacter::Fire: calls Shoot directly when the local role
is authority, and otherwise through the ServerFire RPC, whose handler is
CharServerFire_Implementation. -/
def CharFire (s : CharFireState) : Except NullDeref CharFireState :=
  if s.localRole = NetRole.authority then
    Shoot s
  else
    CharServerFire_Implementation s

/-- The movement and look state of ANeuroStrikeCharacter: its (nullable)
Controller, the movement inputs applied so far, and the accumulated yaw
and pitch controller input. -/
structure MoveLookState : Type where
  controller : Option ControllerRef
  movementInputs : List (ℚ × ℚ)
  yawInput : ℚ
  pitchInput : ℚ
deriving DecidableEq

/-- ANeuroStrikeCharacter::Move: when Controller is not null, applies the
2D movement vector to the forward and right directions; otherwise does
nothing. -/
def Move (s : MoveLookState) (value : ℚ × ℚ) : Except NullDeref MoveLookState :=
  match s.controller with
  | some _ => Except.ok { s with movementInputs := s.movementInputs ++ [value] }
  | none => Except.ok s

/-- ANeuroStrikeCharacter::Look: when Controller is not null, adds the 2D
look vector to the controller yaw and pitch input; otherwise does
nothing. -/
def Look (s : MoveLookState) (value : ℚ × ℚ) : Except NullDeref MoveLookState :=
  match s.controller with
  | some _ =>
    Except.ok { s with yawInput := s.yawInput + value.1, pitchInput := s.pitchInput + value.2 }
  | none => Except.ok s

/-- The state of UTP_PickUpComponent: whether the OnSphereBeginOverlap
handler is registered on the OnComponentBeginOverlap delegate, and how
many times OnPickUp has been broadcast. -/
structure PickUpState : Type where
  handlerRegistered : Bool
  pickUpBroadcasts : Nat
deriving DecidableEq

/-- An actor overlapping the pickup sphere: either the Cast to
ANeuroStrikeCharacter succeeds, or it is some other actor. -/
inductive OverlapActor : Type where
  | character : OverlapActor
  | other : OverlapActor
deriving DecidableEq

/-- UTP_PickUpComponent::BeginPlay: registers OnSphereBeginOverlap on the
OnComponentBeginOverlap delegate. -/
def PickUpBeginPlay (s : PickUpState) : PickUpState :=
  { s with handlerRegistered := true }

/-- UTP_PickUpComponent::OnSphereBeginOverlap: when the other actor casts
to ANeuroStrikeCharacter, broadcasts OnPickUp and removes the handler
from the delegate; otherwise does nothing. -/
def OnSphereBeginOverlap (s : PickUpState) (otherActor : OverlapActor) : PickUpState :=
  match otherActor with
  | OverlapActor.character =>
    { s with pickUpBroadcasts := s.pickUpBroadcasts + 1, handlerRegistered := false }
  | OverlapActor.other => s

/-- Engine delivery of one begin-overlap event: the handler body runs only
while it is registered on the delegate. -/
def overlapEvent (s : PickUpState) (otherActor : OverlapActor) : PickUpState :=
  if s.handlerRegistered then OnSphereBeginOverlap s otherActor else s

/-- Engine delivery of a sequence of begin-overlap events. -/
def runOverlaps (s : PickUpState) (events : List OverlapActor) : PickUpState :=
  List.foldl overlapEvent s events

/-- A concrete character state at the default editor values, with stamina
at 99.9 (reachable from 100 by one Sprint deduction of 0.1). -/
def overshootState : CharacterState :=
  { health := 100
    maxHealth := 100
    baseStamina := 999/10
    maxStamina := 100
    staminaRegenRate := 1/5
    walkingSpeed := 500
    sprintingSpeed := 750
    maxWalkSpeed := 500
    lastInputVector := (0, 0, 0)
    accumulatedTime := 0
    playerId := 1
    weaponComponent := none
    destroyed := false
    weaponComponentDestroyed := false
    despawnEffectsBroadcast := false }

/-- The overshoot state with lastInputVector set to a moving input. -/
def movingState : CharacterState :=
  { overshootState with baseStamina := 50, lastInputVector := (1, 0, 0) }

/-- The overshoot state with a non-null WeaponComponent. -/
def armedState : CharacterState :=
  { overshootState with weaponComponent := some () }

/-- A weapon state whose Character is non-null but whose controller is
null, with ProjectileClass set and the world present: the configuration
on which HandleProjectile reaches its unguarded dereference. -/
def nullControllerWeapon : WeaponState :=
  { character := some { bHasRifle := true, controller := none, hasAnimInstance := true }
    projectileClassSet := true
    worldPresent := true
    fireSoundSet := false
    fireAnimationSet := false
    ownerRole := NetRole.authority
    projectilesSpawned := 0
    soundsPlayed := 0
    montagesPlayed := 0 }

/-- A weapon state with a null Character. -/
def nullCharacterWeapon : WeaponState :=
  { nullControllerWeapon with character := none }

/-- A fully populated controller reference. -/
def fullController : ControllerRef :=
  { isPlayerController := true
    hasEnhancedInputSubsystem := true
    hasEnhancedInputComponent := true }

/-- A character reference without the rifle and with a full player
controller. -/
def freshCharacter : CharacterRef :=
  { bHasRifle := false, controller := some fullController, hasAnimInstance := true }

/-- An attachment state holding no character and nothing attached. -/
def emptyAttachState : AttachState :=
  { character := none
    attachedToMesh := false
    fireMappingContextAdded := false
    fireInputBound := false }

/-- A character firing state with a null WeaponComponent. -/
def noWeaponCharState : CharFireState :=
  { weaponComponent := none, localRole := NetRole.authority, shootEntries := 0 }

/-- A move-look state with a null Controller. -/
def noControllerMoveState : MoveLookState :=
  { controller := none, movementInputs := [], yawInput := 0, pitchInput := 0 }

/-- A pickup state before BeginPlay. -/
def freshPickUpState : PickUpState :=
  { handlerRegistered := false, pickUpBroadcasts := 0 }

/-- The state noWeaponCharState after one entry into Shoot. -/
def shotOnceState : CharFireState :=
  { weaponComponent := none, localRole := NetRole.authority, shootEntries := 1 }

/-- Bind on an ok Except value reduces to the continuation. -/
theorem except_bind_ok {ε α β : Type} (a : α) (f : α → Except ε β) :
    (Except.ok a >>= f) = f a := rfl

/-- Bind on an error Except value propagates the error. -/
theorem except_bind_error {ε α β : Type} (e : ε) (f : α → Except ε β) :
    ((Except.error e : Except ε α) >>= f) = Except.error e := rfl

/-- Claim C1 counterexample: a lethal DecreaseHealth call on a character
whose WeaponComponent is null (it is never assigned in this code) zeroes
the health and then dereferences the null WeaponComponent inside
Despawn_Implementation: the call fails before broadcasting despawn
effects or destroying the actor, so the character is not destroyed. -/
theorem decreaseHealth_null_weapon_crash :
    overshootState.weaponComponent = none ∧
    overshootState.health - 150 ≤ 0 ∧
    DecreaseHealth_Implementation overshootState 150 =
      Except.error NullDeref.nullDeref := by
  refine ⟨rfl, by norm_num [overshootState], ?_⟩
  have hd : DecreaseHealth_Implementation overshootState 150 =
      if overshootState.health - 150 ≤ 0 then
        Despawn_Implementation { overshootState with health := 0 }
      else
        Except.ok { overshootState with health := overshootState.health - 150 } := rfl
  rw [hd, if_pos (by norm_num [overshootState])]
  rfl

/-- Claim C1 (amended): DecreaseHealth with cost C on current health H
sets the health to H - C; when H - C ≤ 0 the health is set to exactly 0
and then, when WeaponComponent is non-null, the character is destroyed
(weapon component destroyed, despawn effects broadcast, actor removed
from the world), while with a null WeaponComponent the call dereferences
the null weapon component and fails before any despawn effect; when
H - C > 0 the character is not destroyed. -/
theorem decreaseHealth_spec_corrected (s : CharacterState) (c : ℚ) :
    (s.health - c ≤ 0 → ∀ w, s.weaponComponent = some w →
      DecreaseHealth_Implementation s c =
        Except.ok
          { s with
            health := 0
            weaponComponent := none
            weaponComponentDestroyed := true
            despawnEffectsBroadcast := true
            destroyed := true }) ∧
    (s.health - c ≤ 0 → s.weaponComponent = none →
      DecreaseHealth_Implementation s c = Except.error NullDeref.nullDeref) ∧
    (0 < s.health - c →
      DecreaseHealth_Implementation s c =
        Except.ok { s with health := s.health - c }) := by
  have hd : DecreaseHealth_Implementation s c =
      if s.health - c ≤ 0 then
        Despawn_Implementation { s with health := 0 }
      else
        Except.ok { s with health := s.health - c } := rfl
  refine ⟨?_, ?_, ?_⟩
  · intro h w hw
    rw [hd, if_pos h]
    simp [Despawn_Implementation, hw, deref, except_bind_ok]
  · intro h hw
    rw [hd, if_pos h]
    simp [Despawn_Implementation, hw, deref, except_bind_error]
  · intro h
    rw [hd, if_neg (not_le.mpr h)]

/-- Witness for C1 (amended): at health 100, a lethal cost of 150 on an
armed character destroys it with health exactly 0, the same lethal cost
on a character with a null WeaponComponent fails at the null dereference,
and a cost of 30 leaves the character alive at health 70. -/
theorem decreaseHealth_spec_corrected_witness :
    DecreaseHealth_Implementation armedState 150 =
      Except.ok
        { armedState with
          health := 0
          weaponComponent := none
          weaponComponentDestroyed := true
          despawnEffectsBroadcast := true
          destroyed := true } ∧
    DecreaseHealth_Implementation overshootState 150 =
      Except.error NullDeref.nullDeref ∧
    DecreaseHealth_Implementation overshootState 30 =
      Except.ok { overshootState with health := overshootState.health - 30 } := by
  have h := decreaseHealth_spec_corrected armedState 150
  have h2 := decreaseHealth_spec_corrected overshootState 150
  have h3 := decreaseHealth_spec_corrected overshootState 30
  exact ⟨h.1 (by norm_num [armedState, overshootState]) () rfl,
    h2.2.1 (by norm_num [overshootState]) rfl,
    h3.2.2 (by norm_num [overshootState])⟩

/-- Claim C2: Sprint sets MaxWalkSpeed to SprintingSpeed and deducts
exactly 0.1 stamina when BaseStamina is at least 0.1 and the last input
vector is not nearly zero; otherwise it sets MaxWalkSpeed to WalkingSpeed
and leaves the stamina unchanged. -/
theorem sprint_spec (s : CharacterState) :
    ((1/10 : ℚ) ≤ s.baseStamina ∧ isNearlyZero s.lastInputVector (1/1000) = false →
      (Sprint s).maxWalkSpeed = s.sprintingSpeed ∧
      (Sprint s).baseStamina = s.baseStamina - 1/10) ∧
    (¬ ((1/10 : ℚ) ≤ s.baseStamina ∧ isNearlyZero s.lastInputVector (1/1000) = false) →
      (Sprint s).maxWalkSpeed = s.walkingSpeed ∧
      (Sprint s).baseStamina = s.baseStamina) := by
  have hcond : (PlayerHasEnoughStamina s (1/10) && IsPlayerMoving s) = true ↔
      ((1/10 : ℚ) ≤ s.baseStamina ∧ isNearlyZero s.lastInputVector (1/1000) = false) := by
    simp [PlayerHasEnoughStamina, IsPlayerMoving, Bool.and_eq_true, Bool.not_eq_true']
  constructor
  · intro h
    rw [Sprint, if_pos (hcond.mpr h)]
    exact ⟨rfl, rfl⟩
  · intro h
    have hb : (PlayerHasEnoughStamina s (1/10) && IsPlayerMoving s) = false := by
      cases hx : (PlayerHasEnoughStamina s (1/10) && IsPlayerMoving s) with
      | true => exact absurd (hcond.mp hx) h
      | false => rfl
    rw [Sprint, if_neg (show ¬(PlayerHasEnoughStamina s (1/10) && IsPlayerMoving s) = true by
      rw [hb]; exact Bool.false_ne_true)]
    exact ⟨rfl, rfl⟩

/-- Witness for C2: at stamina 50 with input vector (1,0,0) the sprint
branch fires, and with the zero input vector the stop branch fires. -/
theorem sprint_spec_witness :
    (Sprint movingState).maxWalkSpeed = movingState.sprintingSpeed ∧
    (Sprint movingState).baseStamina = movingState.baseStamina - 1/10 ∧
    (Sprint overshootState).maxWalkSpeed = overshootState.walkingSpeed ∧
    (Sprint overshootState).baseStamina = overshootState.baseStamina := by
  have h1 := (sprint_spec movingState).1
    (by constructor
        · norm_num [movingState, overshootState]
        · norm_num [movingState, overshootState, isNearlyZero])
  have h2 := (sprint_spec overshootState).2
    (by norm_num [overshootState, isNearlyZero])
  exact ⟨h1.1, h1.2, h2.1, h2.2⟩

/-- Claim C3 (evaluation at the failing input): from BaseStamina 99.9 with
MaxStamina 100 and StaminaRegenRate 0.2, one Tick of 0.1 seconds
regenerates the stamina to 100.1, strictly above MaxStamina — the
regeneration step of Tick does not clamp to the maximum. -/
theorem tick_overshoots_maxStamina :
    overshootState.baseStamina ≤ overshootState.maxStamina ∧
    (Tick overshootState (1/10)).baseStamina = 1001/10 ∧
    overshootState.maxStamina < (Tick overshootState (1/10)).baseStamina := by
  refine ⟨by norm_num [overshootState], ?_, ?_⟩ <;>
    norm_num [Tick, overshootState]

/-- One sprint-interface call preserves non-negative stamina: Sprint
deducts its 0.1 cost only when PlayerHasEnoughStamina reports at least
0.1, and StopSprinting does not touch the stamina. -/
theorem applySprintCall_stamina_nonneg (s : CharacterState) (c : SprintCall)
    (h : 0 ≤ s.baseStamina) : 0 ≤ (applySprintCall s c).baseStamina := by
  cases c with
  | sprint v =>
    simp only [applySprintCall, Sprint]
    by_cases hb : (PlayerHasEnoughStamina { s with lastInputVector := v } (1/10) &&
        IsPlayerMoving { s with lastInputVector := v }) = true
    · rw [if_pos hb]
      have hs : (1/10 : ℚ) ≤ s.baseStamina := by
        have := ((Bool.and_eq_true _ _).mp hb).1
        simpa [PlayerHasEnoughStamina] using this
      show 0 ≤ s.baseStamina - 1/10
      linarith
    · rw [if_neg hb]
      exact h
  | stopSprinting => exact h

/-- Claim C9: non-negative stamina is an invariant of the sprint
interface: any sequence of Sprint and StopSprinting calls starting from
BaseStamina ≥ 0 keeps BaseStamina ≥ 0. -/
theorem runSprintCalls_stamina_nonneg (s : CharacterState) (calls : List SprintCall)
    (h : 0 ≤ s.baseStamina) : 0 ≤ (runSprintCalls s calls).baseStamina := by
  induction calls generalizing s with
  | nil => exact h
  | cons c cs ih => exact ih _ (applySprintCall_stamina_nonneg s c h)

/-- Witness for C9: a concrete sequence of sprint calls from stamina 50
keeps the stamina non-negative. -/
theorem runSprintCalls_stamina_nonneg_witness :
    (0 : ℚ) ≤ movingState.baseStamina ∧
    0 ≤ (runSprintCalls movingState
      [SprintCall.sprint (1, 0, 0), SprintCall.stopSprinting,
       SprintCall.sprint (0, 0, 0)]).baseStamina := by
  have h0 : (0 : ℚ) ≤ movingState.baseStamina := by norm_num [movingState, overshootState]
  exact ⟨h0, runSprintCalls_stamina_nonneg movingState _ h0⟩

/-- Claim C10: after ANeuroStrikeCharacter::BeginPlay, Health equals
MaxHealth, BaseStamina equals MaxStamina, and PlayerId lies in [1, 10000];
UStatsComponent::BeginPlay likewise sets Health to MaxHealth and
BaseStamina to MaxStamina. -/
theorem beginPlay_full_attributes (s : CharacterState) (rnd : Nat) (t : StatsState) :
    (BeginPlay s rnd).health = s.maxHealth ∧
    (BeginPlay s rnd).baseStamina = s.maxStamina ∧
    1 ≤ (BeginPlay s rnd).playerId ∧
    (BeginPlay s rnd).playerId ≤ 10000 ∧
    (StatsBeginPlay t).health = t.maxHealth ∧
    (StatsBeginPlay t).baseStamina = t.maxStamina := by
  refine ⟨rfl, rfl, ?_, ?_, rfl, rfl⟩
  · show 1 ≤ RandRange 1 10000 rnd
    unfold RandRange
    omega
  · show RandRange 1 10000 rnd ≤ 10000
    unfold RandRange
    have hlt : rnd % (10000 + 1 - 1 : Int).toNat < (10000 + 1 - 1 : Int).toNat :=
      Nat.mod_lt _ (by norm_num)
    omega

/-- Claim C4 counterexample: HandleProjectile, run on a weapon whose
ProjectileClass is set and whose world is present but whose Character has
a null controller, dereferences the null result of the player-controller
cast: the operation does not early-return but hits a null dereference. -/
theorem handleProjectile_null_deref :
    HandleProjectile nullControllerWeapon = Except.error NullDeref.nullDeref := by
  rfl

/-- Claim C4 (amended): Shoot, the weapon Fire, Move and Look each guard
their nullable engine object and return without a dereference when it is
null; HandleProjectile guards ProjectileClass and the world, but
dereferences the Character and the unchecked player-controller cast, so a
null controller reaches a null dereference there. -/
theorem null_guards_amended (m : MoveLookState) (v : ℚ × ℚ)
    (cf : CharFireState) (w : WeaponState) :
    (m.controller = none → Move m v = Except.ok m) ∧
    (m.controller = none → Look m v = Except.ok m) ∧
    (cf.weaponComponent = none →
      Shoot cf = Except.ok { cf with shootEntries := cf.shootEntries + 1 }) ∧
    (w.character = none → WeaponFire w = Except.ok w) ∧
    (∀ ch, w.character = some ch → ch.controller = none →
      WeaponFire w = Except.ok w) ∧
    HandleProjectile nullControllerWeapon = Except.error NullDeref.nullDeref := by
  refine ⟨?_, ?_, ?_, ?_, ?_, rfl⟩
  · intro h; simp [Move, h]
  · intro h; simp [Look, h]
  · intro h; simp [Shoot, h]
  · intro h; simp [WeaponFire, h]
  · intro ch hch hctrl; simp [WeaponFire, hch, hctrl]

/-- Witness for C4 (amended): the guards early-return on concrete null
configurations. -/
theorem null_guards_amended_witness :
    Move noControllerMoveState (1, 0) = Except.ok noControllerMoveState ∧
    Look noControllerMoveState (1, 0) = Except.ok noControllerMoveState ∧
    Shoot noWeaponCharState =
      Except.ok { noWeaponCharState with
                  shootEntries := noWeaponCharState.shootEntries + 1 } ∧
    WeaponFire nullCharacterWeapon = Except.ok nullCharacterWeapon ∧
    WeaponFire nullControllerWeapon = Except.ok nullControllerWeapon := by
  have h := null_guards_amended noControllerMoveState (1, 0) noWeaponCharState
    nullCharacterWeapon
  have h2 := null_guards_amended noControllerMoveState (1, 0) noWeaponCharState
    nullControllerWeapon
  exact ⟨h.1 rfl, h.2.1 rfl, h.2.2.1 rfl, h.2.2.2.1 rfl,
    h2.2.2.2.2.1 _ rfl rfl⟩

/-- Claim C5: failed firing attempts are silently absorbed and atomic:
Shoot with a null WeaponComponent, and the weapon Fire with a null
Character or a null controller, return early with no state change (the
ghost shootEntries counter apart), no projectile spawned, and no error. -/
theorem fire_silently_absorbs (cf : CharFireState) (w : WeaponState) :
    (cf.weaponComponent = none →
      Shoot cf = Except.ok { cf with shootEntries := cf.shootEntries + 1 }) ∧
    (w.character = none → WeaponFire w = Except.ok w) ∧
    (∀ ch, w.character = some ch → ch.controller = none →
      WeaponFire w = Except.ok w) := by
  refine ⟨?_, ?_, ?_⟩
  · intro h; simp [Shoot, h]
  · intro h; simp [WeaponFire, h]
  · intro ch hch hctrl; simp [WeaponFire, hch, hctrl]

/-- Witness for C5: the silent-absorption equalities at concrete null
configurations. -/
theorem fire_silently_absorbs_witness :
    Shoot noWeaponCharState =
      Except.ok { noWeaponCharState with
                  shootEntries := noWeaponCharState.shootEntries + 1 } ∧
    WeaponFire nullCharacterWeapon = Except.ok nullCharacterWeapon ∧
    WeaponFire nullControllerWeapon = Except.ok nullControllerWeapon := by
  have h := fire_silently_absorbs noWeaponCharState nullCharacterWeapon
  have h2 := fire_silently_absorbs noWeaponCharState nullControllerWeapon
  exact ⟨h.1 rfl, h.2.1 rfl, h2.2.2 _ rfl rfl⟩

/-- Claim C6: the firing paths are equivalent: Fire runs exactly the same
Shoot logic on both network paths (directly on the authority, through the
ServerFire handler otherwise), the ServerFire handler body is exactly a
call to Shoot, and a completed Fire records exactly one entry into
Shoot. -/
theorem fire_single_shoot (s t : CharFireState) :
    CharFire s = Shoot s ∧
    CharServerFire_Implementation s = Shoot s ∧
    (CharFire s = Except.ok t → t.shootEntries = s.shootEntries + 1) := by
  have h1 : CharFire s = Shoot s := by
    unfold CharFire CharServerFire_Implementation
    split <;> rfl
  refine ⟨h1, rfl, ?_⟩
  intro h
  rw [h1] at h
  cases hw : s.weaponComponent with
  | none =>
    simp only [Shoot, hw] at h
    cases h
    rfl
  | some w =>
    simp only [Shoot, hw] at h
    cases hp : HandleProjectile w with
    | error e => simp [hp, except_bind_error] at h
    | ok w1 =>
      cases hf : HandleProjectileFX w1 with
      | error e => simp [hp, hf, except_bind_ok, except_bind_error] at h
      | ok w2 =>
        simp only [hp, hf, except_bind_ok] at h
        cases h
        rfl

/-- Witness for C6: on a concrete authority state with a null weapon,
Fire equals Shoot and records exactly one Shoot entry. -/
theorem fire_single_shoot_witness :
    CharFire noWeaponCharState = Shoot noWeaponCharState ∧
    shotOnceState.shootEntries = noWeaponCharState.shootEntries + 1 := by
  have h := fire_single_shoot noWeaponCharState shotOnceState
  exact ⟨h.1, h.2.2 rfl⟩

/-- Claim C7: pickup-and-equip is idempotent on the rifle flag: after
AttachWeapon on a (non-null) character the flag GetHasRifle reports is
true, and AttachWeapon on a character whose flag is already true aborts
before attaching the mesh, setting the flag, or binding fire input,
leaving only the stored Character field updated and the flag true. -/
theorem attachWeapon_rifle_idempotent (s : AttachState) (c : CharacterRef) :
    attachStateHasRifle (AttachWeapon s (some c)) = true ∧
    (GetHasRifle c = true →
      AttachWeapon s (some c) = { s with character := some c }) := by
  constructor
  · cases hr : GetHasRifle c with
    | true =>
      simp only [AttachWeapon, hr, if_pos]
      simp [attachStateHasRifle, hr]
    | false =>
      simp only [AttachWeapon, hr]
      cases hcast : castPlayerController (SetHasRifle c true).controller with
      | none =>
        simp [hcast, attachStateHasRifle, GetHasRifle, SetHasRifle]
      | some pc =>
        simp only [hcast]
        cases pc.hasEnhancedInputSubsystem <;> cases pc.hasEnhancedInputComponent <;>
          simp [attachStateHasRifle, GetHasRifle, SetHasRifle]
  · intro hr
    simp [AttachWeapon, hr]

/-- Witness for C7: on a character that already has the rifle, a second
AttachWeapon changes nothing but the stored Character field, and the flag
stays true. -/
theorem attachWeapon_rifle_idempotent_witness :
    attachStateHasRifle (AttachWeapon emptyAttachState
      (some { freshCharacter with bHasRifle := true })) = true ∧
    AttachWeapon emptyAttachState (some { freshCharacter with bHasRifle := true }) =
      { emptyAttachState with character := some { freshCharacter with bHasRifle := true } } := by
  have h := attachWeapon_rifle_idempotent emptyAttachState
    { freshCharacter with bHasRifle := true }
  exact ⟨h.1, h.2 rfl⟩

/-- A sequence of overlap events on a pickup whose handler is not
registered changes nothing. -/
theorem runOverlaps_unregistered (s : PickUpState) (events : List OverlapActor)
    (h : s.handlerRegistered = false) : runOverlaps s events = s := by
  induction events generalizing s with
  | nil => rfl
  | cons e es ih =>
    have hstep : overlapEvent s e = s := by simp [overlapEvent, h]
    show runOverlaps (overlapEvent s e) es = s
    rw [hstep]
    exact ih s h

/-- A sequence of overlap events on a pickup with the handler registered:
the broadcast count rises by one exactly when a character overlap occurs,
and the handler stays registered exactly when none occurs. -/
theorem runOverlaps_registered (s : PickUpState) (events : List OverlapActor)
    (h : s.handlerRegistered = true) :
    (runOverlaps s events).pickUpBroadcasts =
      s.pickUpBroadcasts + (if OverlapActor.character ∈ events then 1 else 0) ∧
    ((runOverlaps s events).handlerRegistered = true ↔
      OverlapActor.character ∉ events) := by
  induction events generalizing s with
  | nil => simp [runOverlaps, h]
  | cons e es ih =>
    cases e with
    | character =>
      have hstep : overlapEvent s OverlapActor.character =
          { s with pickUpBroadcasts := s.pickUpBroadcasts + 1,
                   handlerRegistered := false } := by
        simp [overlapEvent, h, OnSphereBeginOverlap]
      constructor
      · show (runOverlaps (overlapEvent s OverlapActor.character) es).pickUpBroadcasts = _
        rw [hstep, runOverlaps_unregistered _ es rfl]
        simp
      · show ((runOverlaps (overlapEvent s OverlapActor.character) es).handlerRegistered
          = true ↔ _)
        rw [hstep, runOverlaps_unregistered _ es rfl]
        simp
    | other =>
      have hstep : overlapEvent s OverlapActor.other = s := by
        simp [overlapEvent, h, OnSphereBeginOverlap]
      have hmem : (OverlapActor.character ∈ OverlapActor.other :: es) ↔
          OverlapActor.character ∈ es := by simp
      constructor
      · show (runOverlaps (overlapEvent s OverlapActor.other) es).pickUpBroadcasts = _
        rw [hstep, (ih s h).1]
        simp [hmem]
      · show ((runOverlaps (overlapEvent s OverlapActor.other) es).handlerRegistered
          = true ↔ _)
        rw [hstep, (ih s h).2]
        simp

/-- Claim C8: after BeginPlay registers the overlap handler, a pickup
broadcasts OnPickUp at most once over any sequence of overlap events: the
broadcast count rises by exactly one when the sequence contains a
character overlap (the first one broadcasts and unregisters the handler,
so no later overlap broadcasts again) and by zero otherwise, and the
handler stays registered exactly when no character overlap occurred. -/
theorem pickUp_broadcast_at_most_once (s : PickUpState) (events : List OverlapActor) :
    (runOverlaps (PickUpBeginPlay s) events).pickUpBroadcasts =
      s.pickUpBroadcasts + (if OverlapActor.character ∈ events then 1 else 0) ∧
    ((runOverlaps (PickUpBeginPlay s) events).handlerRegistered = true ↔
      OverlapActor.character ∉ events) := by
  have h := runOverlaps_registered (PickUpBeginPlay s) events rfl
  simpa [PickUpBeginPlay] using h
